import Mathlib

/-!
Verification of the movement/collision core of the tile game
(`core/settings.py`, `world/tilemap.py`, `entities/objects.py`, `core/game.py`).

Shallow embedding conventions:
* Python ints are `ℤ`, Python floats are idealized as exact rationals `ℚ`
  (the gameplay logic only adds, subtracts, multiplies and divides them).
* Grid data is a list of rows of characters, as the loaded `level_data`.
* The unbounded `while True` slide loop of `Player.start_move` is embedded
  with explicit fuel `width + height + 1`; the termination theorem below
  shows that any fuel above `width + height` produces the same result, so
  the fuel-free loop of the source is captured exactly.
* Audio, rendering, particles, rotation and other purely cosmetic state
  (trail fade, `prev_x`/`prev_y`, dust, screen shake, captions) are omitted;
  the spec itself marks them as cosmetic and out of the gameplay core.
-/

namespace Tomb

/-- `TILE_SIZE` from `core/settings.py`. -/
def TILE_SIZE : ℤ := 32

/-- `PLAYER_SPEED` from `core/settings.py` (pixels per second). -/
def PLAYER_SPEED : ℚ := 1100

/-- `MAX_LIVES` from `core/settings.py`. -/
def MAX_LIVES : ℤ := 1

/-- The tile grid of `world/tilemap.py`: `width`, `height` and the loaded
`level_data` (one list of characters per row, rows normalized to length
`width` by `TileMap.__init__`). -/
structure TileMap where
  width : ℕ
  height : ℕ
  rows : List (List Char)
deriving DecidableEq

/-- `TileMap.get_tile`: safe retrieval of the tile character; returns the
space character for every out-of-bounds coordinate. -/
def TileMap.get_tile (g : TileMap) (x y : ℤ) : Char :=
  if 0 ≤ y ∧ y < (g.height : ℤ) ∧ 0 ≤ x ∧ x < (g.width : ℤ) then
    (g.rows.getD y.toNat []).getD x.toNat ' '
  else ' '

/-- `TileMap.is_solid`: out-of-bounds coordinates are solid, in-bounds
coordinates are solid exactly when the tile is in `solid_tiles = {"#"}`. -/
def TileMap.is_solid (g : TileMap) (x y : ℤ) : Bool :=
  if x < 0 ∨ y < 0 ∨ (g.width : ℤ) ≤ x ∨ (g.height : ℤ) ≤ y then true
  else decide (g.get_tile x y = '#')

/-- The look-ahead loop of `Player.start_move` (objects.py lines 176-181),
with explicit fuel: step by `(dx, dy)` while the next cell is not solid and
return the last non-solid cell visited. -/
def slideFuel (g : TileMap) (dx dy : ℤ) : ℕ → ℤ → ℤ → ℤ × ℤ
  | 0, x, y => (x, y)
  | fuel + 1, x, y =>
    if g.is_solid (x + dx) (y + dy) then (x, y)
    else slideFuel g dx dy fuel (x + dx) (y + dy)

/-- The slide resolution of `Player.start_move`: the source loop is
unbounded; fuel `width + height + 1` is enough for every input (proved by
the termination theorem below), so this equals the source loop's result. -/
def TileMap.resolveSlide (g : TileMap) (tx ty dx dy : ℤ) : ℤ × ℤ :=
  slideFuel g dx dy (g.width + g.height + 1) tx ty

/-- The four cardinal unit directions produced by `Player.handle_input`. -/
abbrev Cardinal (dx dy : ℤ) : Prop :=
  (dx = 1 ∧ dy = 0) ∨ (dx = -1 ∧ dy = 0) ∨ (dx = 0 ∧ dy = 1) ∨ (dx = 0 ∧ dy = -1)

/-- Player state (`Player` in `entities/objects.py`), gameplay fields only.
Positions and timers are floats in the source, idealized as `ℚ`; purely
visual fields (`prev_x`, `prev_y`, rotation, trail, dust particles, sprite)
are omitted as cosmetic. -/
structure PState where
  x : ℚ
  y : ℚ
  target_x : ℚ
  target_y : ℚ
  dir_x : ℤ
  dir_y : ℤ
  moving : Bool
  alive : Bool
  death_timer : ℚ
  move_cooldown : ℚ
  score : ℤ
  spawn_tile_x : ℤ
  spawn_tile_y : ℤ
deriving DecidableEq

/-- `Player.__init__`: spawn at `spawn_tile * TILE_SIZE`, idle, alive,
timers zero, target equal to the position. -/
def PState.init (sx sy : ℤ) : PState where
  x := ((sx * TILE_SIZE : ℤ) : ℚ)
  y := ((sy * TILE_SIZE : ℤ) : ℚ)
  target_x := ((sx * TILE_SIZE : ℤ) : ℚ)
  target_y := ((sy * TILE_SIZE : ℤ) : ℚ)
  dir_x := 0
  dir_y := 0
  moving := false
  alive := true
  death_timer := 0
  move_cooldown := 0
  score := 0
  spawn_tile_x := sx
  spawn_tile_y := sy

/-- Floor of a rational: Python float floor-division `//` rounds toward
negative infinity, and `int()` of the resulting integral float is exact. -/
def qfloor (q : ℚ) : ℤ :=
  ⌊q⌋

/-- `Player.start_move`: resolve the slide from the current tile; if the
path is blocked immediately, stay put and arm the move cooldown (0.2 s);
otherwise set the pixel target and start moving. Sounds, dust and screen
shake are external effects; rotation is cosmetic. -/
def PState.start_move (p : PState) (g : TileMap) (dx dy : ℤ) : PState :=
  let tile_x := qfloor (p.x / ((TILE_SIZE : ℤ) : ℚ))
  let tile_y := qfloor (p.y / ((TILE_SIZE : ℤ) : ℚ))
  let dest := g.resolveSlide tile_x tile_y dx dy
  if dest.1 = tile_x ∧ dest.2 = tile_y then
    { p with dir_x := dx, dir_y := dy, move_cooldown := 1 / 5 }
  else
    { p with
        target_x := ((dest.1 * TILE_SIZE : ℤ) : ℚ)
        target_y := ((dest.2 * TILE_SIZE : ℤ) : ℚ)
        dir_x := dx
        dir_y := dy
        moving := true }

/-- `Player.update`: decrement the cooldown; a dead player only runs its
death timer; a moving player advances toward the target at constant speed
and snaps exactly onto it when the remaining distance is within one step.
In the source the remaining distance is `sqrt(vx^2 + vy^2)`; movement
targets are always axis-aligned with the position (`start_move` moves
along a single axis), so one of `vx`, `vy` is zero and the Euclidean
length equals `|vx| + |vy|`, which keeps the embedding inside `ℚ`. -/
def PState.update (p : PState) (dt : ℚ) : PState :=
  let p := if p.move_cooldown > 0 then { p with move_cooldown := p.move_cooldown - dt } else p
  if p.alive = false then
    if p.death_timer > 0 then { p with death_timer := p.death_timer - dt } else p
  else if p.moving = false then p
  else
    let vec_x := p.target_x - p.x
    let vec_y := p.target_y - p.y
    let dist := |vec_x| + |vec_y|
    let step := PLAYER_SPEED * dt
    if dist ≤ step then
      { p with x := p.target_x, y := p.target_y, moving := false }
    else
      { p with x := p.x + vec_x / dist * step, y := p.y + vec_y / dist * step }

/-- `Player.kill`: mark dead, arm the death timer, cancel the slide flag
(the position is left wherever the slide had reached). -/
def PState.kill (p : PState) (death_duration : ℚ) : PState :=
  { p with alive := false, death_timer := death_duration, moving := false }

/-- `Player.reset_to_start`: back to the spawn tile, idle, alive, timers
cleared. -/
def PState.reset_to_start (p : PState) : PState :=
  { p with
      x := ((p.spawn_tile_x * TILE_SIZE : ℤ) : ℚ)
      y := ((p.spawn_tile_y * TILE_SIZE : ℤ) : ℚ)
      target_x := ((p.spawn_tile_x * TILE_SIZE : ℤ) : ℚ)
      target_y := ((p.spawn_tile_y * TILE_SIZE : ℤ) : ℚ)
      moving := false
      alive := true
      death_timer := 0 }

/-- One step of the player state machine, as driven by the game loop:
keyboard input (only accepted when idle, alive and off cooldown, per
`Player.handle_input`), the per-frame `update(dt)` with `dt >= 0`,
`kill` (invoked by `Game.handle_traps`, with death duration `>= 0`), and
`reset_to_start` (invoked by `Game.finish_player_death`). -/
inductive PStep (g : TileMap) : PState → PState → Prop
  | input (s : PState) (dx dy : ℤ) (hm : s.moving = false) (ha : s.alive = true)
      (hcd : s.move_cooldown ≤ 0) (hd : Cardinal dx dy) :
      PStep g s (s.start_move g dx dy)
  | upd (s : PState) (dt : ℚ) (hdt : 0 ≤ dt) : PStep g s (s.update dt)
  | kill (s : PState) (d : ℚ) (hd : 0 ≤ d) : PStep g s (s.kill d)
  | reset (s : PState) : PStep g s s.reset_to_start

/-- The player states reachable from a fresh spawn on grid `g`. -/
def PReachable (g : TileMap) (sx sy : ℤ) (s : PState) : Prop :=
  Relation.ReflTransGen (PStep g) (PState.init sx sy) s

/-- The position rests exactly on a grid cell boundary. -/
def PAligned (s : PState) : Prop :=
  ∃ tx ty : ℤ, s.x = ((tx * TILE_SIZE : ℤ) : ℚ) ∧ s.y = ((ty * TILE_SIZE : ℤ) : ℚ)

/-- The motion target rests exactly on a grid cell boundary. -/
def PTargetAligned (s : PState) : Prop :=
  ∃ tx ty : ℤ, s.target_x = ((tx * TILE_SIZE : ℤ) : ℚ) ∧ s.target_y = ((ty * TILE_SIZE : ℤ) : ℚ)

/-- A 3x1 fully open corridor used for the C2 counterexample. -/
def c2Grid : TileMap := ⟨3, 1, [['.', '.', '.']]⟩

/-- A concrete player state reached by: spawn at (0,0), start sliding
right (target tile (2,0)), advance one 0.01 s frame (11 pixels), then get
killed by a trap mid-slide. -/
def c2Bad : PState :=
  ((((PState.init 0 0).start_move c2Grid 1 0).update (1 / 100)).kill 0)

/-- The explicit value of `(PState.init 0 0).start_move c2Grid 1 0`. -/
def c2S1 : PState where
  x := 0
  y := 0
  target_x := 64
  target_y := 0
  dir_x := 1
  dir_y := 0
  moving := true
  alive := true
  death_timer := 0
  move_cooldown := 0
  score := 0
  spawn_tile_x := 0
  spawn_tile_y := 0

/-- The explicit value of `c2S1.update (1 / 100)`: 11 pixels into the slide. -/
def c2S2 : PState where
  x := 11
  y := 0
  target_x := 64
  target_y := 0
  dir_x := 1
  dir_y := 0
  moving := true
  alive := true
  death_timer := 0
  move_cooldown := 0
  score := 0
  spawn_tile_x := 0
  spawn_tile_y := 0

/-- A 4x1 corridor `...#`: three free cells, then a wall. -/
def c1Grid : TileMap := ⟨4, 1, [['.', '.', '.', '#']]⟩

/-- A fully open 5x1 corridor (all floor, bounded only by the grid edge). -/
def c9Grid : TileMap := ⟨5, 1, [['.', '.', '.', '.', '.']]⟩

/-- An integer pixel rectangle, as `pygame.Rect` stores one. `pygame.Rect`
truncates float coordinates; all player coordinates arising in the game
are non-negative, where truncation agrees with the floor used here. -/
structure Rect where
  x : ℤ
  y : ℤ
  w : ℤ
  h : ℤ
deriving DecidableEq

/-- `pygame.Rect.colliderect`: overlap in both axes; rectangles that only
touch along an edge do not collide. -/
def Rect.colliderect (a b : Rect) : Bool :=
  decide (b.x < a.x + a.w) && decide (a.x < b.x + b.w) &&
  decide (b.y < a.y + a.h) && decide (a.y < b.y + b.h)

/-- `Player.rect`: the player's full-tile collision box at its current
(possibly mid-slide) position. -/
def PState.rect (p : PState) : Rect :=
  ⟨qfloor p.x, qfloor p.y, TILE_SIZE, TILE_SIZE⟩

/-- `Player.get_tile_pos`: the grid cell containing the player's center,
`(x + TILE_SIZE // 2) // TILE_SIZE` per axis. -/
def PState.get_tile_pos (p : PState) : ℤ × ℤ :=
  (qfloor ((p.x + ((TILE_SIZE / 2 : ℤ) : ℚ)) / ((TILE_SIZE : ℤ) : ℚ)),
   qfloor ((p.y + ((TILE_SIZE / 2 : ℤ) : ℚ)) / ((TILE_SIZE : ℤ) : ℚ)))

/-- `Collectible` (coin): tile coordinate and collected flag. -/
structure Collectible where
  tile_x : ℤ
  tile_y : ℤ
  collected : Bool
deriving DecidableEq

/-- `Dot`: tile coordinate and collected flag. -/
structure Dot where
  tile_x : ℤ
  tile_y : ℤ
  collected : Bool
deriving DecidableEq

/-- `Dot` hitbox side: `TILE_SIZE // 6`. -/
def Dot.size : ℤ := TILE_SIZE / 6

/-- `Dot.rect`: a `size`-square box centered in the tile
(`center_offset = (TILE_SIZE - size) // 2`). -/
def Dot.rect (d : Dot) : Rect :=
  ⟨d.tile_x * TILE_SIZE + (TILE_SIZE - Dot.size) / 2,
   d.tile_y * TILE_SIZE + (TILE_SIZE - Dot.size) / 2, Dot.size, Dot.size⟩

/-- `Star`: tile coordinate and collected flag. -/
structure Star where
  tile_x : ℤ
  tile_y : ℤ
  collected : Bool
deriving DecidableEq

/-- `Star` hitbox side: `int(TILE_SIZE * 0.7) = 22`. -/
def Star.size : ℤ := 22

/-- `Star.rect`: a `size`-square box centered in the tile. -/
def Star.rect (s : Star) : Rect :=
  ⟨s.tile_x * TILE_SIZE + (TILE_SIZE - Star.size) / 2,
   s.tile_y * TILE_SIZE + (TILE_SIZE - Star.size) / 2, Star.size, Star.size⟩

/-- `SpikeTrap`: tile coordinate and active flag. -/
structure SpikeTrap where
  tile_x : ℤ
  tile_y : ℤ
  active : Bool
deriving DecidableEq

/-- `SpikeTrap` hitbox: `SCALE_PCT = 0.35` gives
`trap_size = int(TILE_SIZE * 0.35) = 11` and
`padding = (TILE_SIZE - trap_size) // 2 = 10`. -/
def SpikeTrap.trap_size : ℤ := 11

/-- `padding = (TILE_SIZE - trap_size) // 2`. -/
def SpikeTrap.pad : ℤ := (TILE_SIZE - SpikeTrap.trap_size) / 2

/-- `SpikeTrap` rect: `(x + padding, y + padding, TILE_SIZE - padding*2,
TILE_SIZE - padding*2)`. -/
def SpikeTrap.rect (t : SpikeTrap) : Rect :=
  ⟨t.tile_x * TILE_SIZE + SpikeTrap.pad, t.tile_y * TILE_SIZE + SpikeTrap.pad,
   TILE_SIZE - SpikeTrap.pad * 2, TILE_SIZE - SpikeTrap.pad * 2⟩

/-- `Trap.check_hit`: an inactive trap never hits; otherwise rectangle
overlap with the player's box. -/
def SpikeTrap.check_hit (t : SpikeTrap) (player_rect : Rect) : Bool :=
  t.active && t.rect.colliderect player_rect

/-- `Exit`: tile coordinate; its hitbox is inset by `padding = 4`. -/
structure ExitPortal where
  tile_x : ℤ
  tile_y : ℤ
deriving DecidableEq

/-- `Exit` rect: `(x + 4, y + 4, TILE_SIZE - 8, TILE_SIZE - 8)`. -/
def ExitPortal.rect (e : ExitPortal) : Rect :=
  ⟨e.tile_x * TILE_SIZE + 4, e.tile_y * TILE_SIZE + 4,
   TILE_SIZE - 4 * 2, TILE_SIZE - 4 * 2⟩

/-- `Exit.check_hit`: rectangle overlap with the player's box. -/
def ExitPortal.check_hit (e : ExitPortal) (player_rect : Rect) : Bool :=
  e.rect.colliderect player_rect

/-- The top-level game mode (`Game.state` strings). -/
inductive GState where
  | menu
  | shop
  | playing
  | pause
  | game_over
  | level_complete
deriving DecidableEq

/-- The per-level gameplay state of `Game` (`core/game.py`) restricted to
the fields that the playing-state collision/transition checks read or
write. Camera, UI, audio and the save file are external; there is always
an exit portal (the source installs a fallback when the level has none).
`level_stars_best` stands for `level_stars[<current level name>]`, the
stored best star count that `update_level_stars_record` maintains. -/
structure GameS where
  state : GState
  lives : ℤ
  global_coins : ℤ
  stars_collected_count : ℤ
  level_stars_best : ℤ
  player : PState
  collectibles : List Collectible
  traps : List SpikeTrap
  stars : List Star
  dots : List Dot
  exit_portal : ExitPortal
deriving DecidableEq

/-- `Game.handle_collectibles`: every uncollected coin whose tile equals
the player's rounded tile position is collected; each collection adds one
to the player's score and to the global coins (`save_data` is external
I/O). -/
def handle_collectibles (g : GameS) : GameS :=
  let p := g.player.get_tile_pos
  let newly : ℕ := g.collectibles.countP
    (fun c => !c.collected && c.tile_x == p.1 && c.tile_y == p.2)
  { g with
      collectibles := g.collectibles.map (fun c =>
        if !c.collected && c.tile_x == p.1 && c.tile_y == p.2 then
          { c with collected := true }
        else c)
      player := { g.player with score := g.player.score + (newly : ℤ) }
      global_coins := g.global_coins + (newly : ℤ) }

/-- The loop body of `Game.handle_stars`: mark the first uncollected star
whose hitbox overlaps the player and stop (`break`); report whether one
was collected. -/
def collect_first_star (r : Rect) : List Star → List Star × Bool
  | [] => ([], false)
  | s :: rest =>
    if !s.collected && s.rect.colliderect r then
      ({ s with collected := true } :: rest, true)
    else
      let p := collect_first_star r rest
      (s :: p.1, p.2)

/-- `Game.handle_stars`: collect at most one star per frame and bump the
session star counter. -/
def handle_stars (g : GameS) : GameS :=
  let p := collect_first_star g.player.rect g.stars
  { g with
      stars := p.1
      stars_collected_count := g.stars_collected_count + (if p.2 then 1 else 0) }

/-- `Game.handle_traps`: return immediately if the player is already dead;
otherwise the first trap whose `check_hit` fires kills the player (death
duration 0) and the loop returns. -/
def handle_traps (g : GameS) : GameS :=
  if g.player.alive = false then g
  else if g.traps.any (fun t => t.check_hit g.player.rect) then
    { g with player := g.player.kill 0 }
  else g

/-- The dot-collection loop inlined in `Game.update_playing`: every dot
whose hitbox overlaps the player is marked collected and removed from the
list, so the list keeps exactly the non-overlapping dots. -/
def collect_dots (g : GameS) : GameS :=
  { g with dots := g.dots.filter (fun d => !(d.rect.colliderect g.player.rect)) }

/-- `Game.finish_player_death`: decrement lives; if none remain switch to
the game-over state (the player is left where it died, `overlay_index`
is UI state and omitted); otherwise respawn the player at the spawn
tile. -/
def finish_player_death (g : GameS) : GameS :=
  if g.lives - 1 ≤ 0 then { g with lives := g.lives - 1, state := GState.game_over }
  else { g with lives := g.lives - 1, player := g.player.reset_to_start }

/-- The life-loss check inlined in `Game.update_playing`: a dead player
whose death timer has run out triggers `finish_player_death`. -/
def death_check (g : GameS) : GameS :=
  if g.player.alive = false ∧ g.player.death_timer ≤ 0 then finish_player_death g else g

/-- The exit-reached check inlined in `Game.update_playing`: on overlap
with the exit hitbox, run `update_level_stars_record` (raise the stored
best star count if strictly beaten) and switch to the level-complete
state. Music and sounds are external effects. -/
def exit_check (g : GameS) : GameS :=
  if g.exit_portal.check_hit g.player.rect then
    { g with
        level_stars_best :=
          if g.stars_collected_count > g.level_stars_best then g.stars_collected_count
          else g.level_stars_best
        state := GState.level_complete }
  else g

/-- The collision/transition phase of `Game.update_playing` (game.py lines
421-442) in source order: `handle_collectibles`, `handle_traps`,
`handle_stars`, the dot loop, the life-loss check, then the exit-reached
check. Input handling, player integration, camera, pause handling and the
fade run outside this phase and do not touch the modeled fields. -/
def update_playing_checks (g : GameS) : GameS :=
  exit_check (death_check (collect_dots (handle_stars (handle_traps (handle_collectibles g)))))

/-- Modelled from claim C3's words: the same six checks but with the
exit-reached check before the life-loss check ("... then dot collection,
then the exit-reached check, and finally the life-loss check"). -/
def checks_claimed_order (g : GameS) : GameS :=
  death_check (exit_check (collect_dots (handle_stars (handle_traps (handle_collectibles g)))))

/-- Modelled from the amended wording of C3: collectible collection, then
trap collision, then star collection, then dot collection, then the
life-loss check, and finally the exit-reached check. -/
def checks_amended_order (g : GameS) : GameS :=
  exit_check (death_check (collect_dots (handle_stars (handle_traps (handle_collectibles g)))))

/-- An idle, alive player resting on tile (0,0). -/
def pIdle0 : PState where
  x := 0
  y := 0
  target_x := 0
  target_y := 0
  dir_x := 0
  dir_y := 0
  moving := false
  alive := true
  death_timer := 0
  move_cooldown := 0
  score := 0
  spawn_tile_x := 0
  spawn_tile_y := 0

/-- A dead player resting on tile (0,0) with an expired death timer. -/
def pDead0 : PState where
  x := 0
  y := 0
  target_x := 0
  target_y := 0
  dir_x := 0
  dir_y := 0
  moving := false
  alive := false
  death_timer := 0
  move_cooldown := 0
  score := 0
  spawn_tile_x := 0
  spawn_tile_y := 0

/-- An alive player standing at pixel x = 17 (between tiles 0 and 1). -/
def pAt17 : PState where
  x := 17
  y := 0
  target_x := 17
  target_y := 0
  dir_x := 0
  dir_y := 0
  moving := false
  alive := true
  death_timer := 0
  move_cooldown := 0
  score := 0
  spawn_tile_x := 0
  spawn_tile_y := 0

/-- C3 scenario: a playing frame with a dead player (timer expired), one
life, and the exit portal under the player. -/
def c3Game : GameS where
  state := GState.playing
  lives := 1
  global_coins := 0
  stars_collected_count := 0
  level_stars_best := 0
  player := pDead0
  collectibles := []
  traps := []
  stars := []
  dots := []
  exit_portal := ⟨0, 0⟩

/-- C4 scenario: the player stands at pixel x = 17, overlapping the dot of
tile (0,0) while its rounded tile position is (1,0). -/
def c4Dot : Dot := ⟨0, 0, false⟩

/-- The C4 game state: one dot at tile (0,0), player at pixel x = 17. -/
def c4Game : GameS where
  state := GState.playing
  lives := 1
  global_coins := 0
  stars_collected_count := 0
  level_stars_best := 0
  player := pAt17
  collectibles := []
  traps := []
  stars := []
  dots := [c4Dot]
  exit_portal := ⟨3, 3⟩

/-- C5 scenario: an alive player standing on an active trap, exit far
away, two lives. -/
def c5Game : GameS where
  state := GState.playing
  lives := 2
  global_coins := 0
  stars_collected_count := 0
  level_stars_best := 0
  player := pIdle0
  collectibles := []
  traps := [⟨0, 0, true⟩]
  stars := []
  dots := []
  exit_portal := ⟨3, 3⟩

/-- C8 scenario: a trap and a star on the same tile (0,0), the alive
player overlapping both, one life. -/
def c8Game : GameS where
  state := GState.playing
  lives := 1
  global_coins := 0
  stars_collected_count := 0
  level_stars_best := 0
  player := pIdle0
  collectibles := []
  traps := [⟨0, 0, true⟩]
  stars := [⟨0, 0, false⟩]
  dots := []
  exit_portal := ⟨3, 3⟩

/-- C10 scenario: a dead player whose box still overlaps an active trap. -/
def c10Game : GameS where
  state := GState.playing
  lives := 1
  global_coins := 0
  stars_collected_count := 0
  level_stars_best := 0
  player := pDead0
  collectibles := []
  traps := [⟨0, 0, true⟩]
  stars := []
  dots := []
  exit_portal := ⟨3, 3⟩

/-- A non-solid cell lies inside the grid bounds (contrapositive of the
out-of-bounds branch of `is_solid`). -/
theorem TileMap.bounds_of_not_solid {g : TileMap} {x y : ℤ}
    (h : g.is_solid x y = false) :
    0 ≤ x ∧ x < (g.width : ℤ) ∧ 0 ≤ y ∧ y < (g.height : ℤ) := by
  unfold TileMap.is_solid at h
  split at h
  · exact absurd h (by simp)
  · rename_i hg
    push_neg at hg
    exact ⟨hg.1, by omega, hg.2.1, by omega⟩

/-- Any out-of-bounds cell is solid. -/
theorem TileMap.is_solid_of_oob {g : TileMap} {x y : ℤ}
    (h : x < 0 ∨ y < 0 ∨ (g.width : ℤ) ≤ x ∨ (g.height : ℤ) ≤ y) :
    g.is_solid x y = true := by
  unfold TileMap.is_solid
  rw [if_pos h]

/-- Core lemma about the slide loop: if the `n` cells after the start in
direction `(dx, dy)` are non-solid and the `(n+1)`-th is solid, then the
loop with any fuel above `n` stops exactly `n` steps from the start. -/
theorem slideFuel_run (g : TileMap) (dx dy : ℤ) (n : ℕ) :
    ∀ (fuel : ℕ) (tx ty : ℤ),
      (∀ k : ℕ, 1 ≤ k → k ≤ n →
        g.is_solid (tx + (k : ℤ) * dx) (ty + (k : ℤ) * dy) = false) →
      g.is_solid (tx + ((n : ℤ) + 1) * dx) (ty + ((n : ℤ) + 1) * dy) = true →
      n < fuel →
      slideFuel g dx dy fuel tx ty = (tx + (n : ℤ) * dx, ty + (n : ℤ) * dy) := by
  induction n with
  | zero =>
    intro fuel tx ty _ hsolid hfuel
    obtain ⟨f, rfl⟩ : ∃ f, fuel = f + 1 := ⟨fuel - 1, by omega⟩
    have h1 : g.is_solid (tx + dx) (ty + dy) = true := by
      have e1 : tx + (((0 : ℕ) : ℤ) + 1) * dx = tx + dx := by push_cast; ring
      have e2 : ty + (((0 : ℕ) : ℤ) + 1) * dy = ty + dy := by push_cast; ring
      rw [e1, e2] at hsolid
      exact hsolid
    simp [slideFuel, h1]
  | succ m ih =>
    intro fuel tx ty hfree hsolid hfuel
    obtain ⟨f, rfl⟩ : ∃ f, fuel = f + 1 := ⟨fuel - 1, by omega⟩
    have h1 : g.is_solid (tx + dx) (ty + dy) = false := by
      have h := hfree 1 le_rfl (by omega)
      have e1 : tx + ((1 : ℕ) : ℤ) * dx = tx + dx := by push_cast; ring
      have e2 : ty + ((1 : ℕ) : ℤ) * dy = ty + dy := by push_cast; ring
      rw [e1, e2] at h
      exact h
    have step : slideFuel g dx dy (f + 1) tx ty = slideFuel g dx dy f (tx + dx) (ty + dy) := by
      simp [slideFuel, h1]
    rw [step]
    have ihx := ih f (tx + dx) (ty + dy)
      (by
        intro k hk1 hk2
        have h := hfree (k + 1) (by omega) (by omega)
        have e1 : tx + ((k + 1 : ℕ) : ℤ) * dx = tx + dx + (k : ℤ) * dx := by push_cast; ring
        have e2 : ty + ((k + 1 : ℕ) : ℤ) * dy = ty + dy + (k : ℤ) * dy := by push_cast; ring
        rw [e1, e2] at h
        exact h)
      (by
        have e1 : tx + (((m + 1 : ℕ) : ℤ) + 1) * dx = tx + dx + ((m : ℤ) + 1) * dx := by
          push_cast; ring
        have e2 : ty + (((m + 1 : ℕ) : ℤ) + 1) * dy = ty + dy + ((m : ℤ) + 1) * dy := by
          push_cast; ring
        rw [e1, e2] at hsolid
        exact hsolid)
      (by omega)
    rw [ihx]
    simp only [Prod.mk.injEq]
    constructor <;> push_cast <;> ring

/-- A solid-free straight run in a cardinal direction is bounded by the
grid perimeter: each of its cells is in bounds and they advance along one
axis. -/
theorem run_bound {g : TileMap} {tx ty dx dy : ℤ} {n : ℕ} (hc : Cardinal dx dy)
    (hfree : ∀ k : ℕ, 1 ≤ k → k ≤ n →
      g.is_solid (tx + (k : ℤ) * dx) (ty + (k : ℤ) * dy) = false) :
    n ≤ g.width + g.height := by
  rcases n with _ | m
  · omega
  · have h1 := TileMap.bounds_of_not_solid (hfree 1 le_rfl (by omega))
    have hn := TileMap.bounds_of_not_solid (hfree (m + 1) (by omega) le_rfl)
    rcases hc with ⟨hx, hy⟩ | ⟨hx, hy⟩ | ⟨hx, hy⟩ | ⟨hx, hy⟩ <;>
      subst hx <;> subst hy <;> push_cast at h1 hn <;>
      simp only [mul_one, mul_zero, mul_neg_one, add_zero] at h1 hn <;> omega

/-- Stepping in one cardinal direction eventually hits a solid cell (at the
latest, the grid edge), so a least free-run length exists and is bounded by
the grid perimeter. -/
theorem exists_run (g : TileMap) (tx ty dx dy : ℤ) (hc : Cardinal dx dy) :
    ∃ n : ℕ,
      (∀ k : ℕ, 1 ≤ k → k ≤ n →
        g.is_solid (tx + (k : ℤ) * dx) (ty + (k : ℤ) * dy) = false) ∧
      g.is_solid (tx + ((n : ℤ) + 1) * dx) (ty + ((n : ℤ) + 1) * dy) = true ∧
      n ≤ g.width + g.height := by
  classical
  have hex : ∃ j : ℕ,
      g.is_solid (tx + ((j : ℤ) + 1) * dx) (ty + ((j : ℤ) + 1) * dy) = true := by
    rcases hc with ⟨hx, hy⟩ | ⟨hx, hy⟩ | ⟨hx, hy⟩ | ⟨hx, hy⟩ <;> subst hx <;> subst hy
    · refine ⟨((g.width : ℤ) - tx).toNat, TileMap.is_solid_of_oob ?_⟩
      have := Int.self_le_toNat ((g.width : ℤ) - tx)
      right; right; left
      simp only [mul_one, mul_zero, add_zero] at *
      omega
    · refine ⟨tx.toNat, TileMap.is_solid_of_oob ?_⟩
      have := Int.self_le_toNat tx
      left
      simp only [mul_neg_one, mul_zero, add_zero] at *
      omega
    · refine ⟨((g.height : ℤ) - ty).toNat, TileMap.is_solid_of_oob ?_⟩
      have := Int.self_le_toNat ((g.height : ℤ) - ty)
      right; right; right
      simp only [mul_one, mul_zero, add_zero] at *
      omega
    · refine ⟨ty.toNat, TileMap.is_solid_of_oob ?_⟩
      have := Int.self_le_toNat ty
      right; left
      simp only [mul_neg_one, mul_zero, add_zero] at *
      omega
  have hfree : ∀ k : ℕ, 1 ≤ k → k ≤ Nat.find hex →
      g.is_solid (tx + (k : ℤ) * dx) (ty + (k : ℤ) * dy) = false := by
    intro k hk1 hk2
    have hlt : k - 1 < Nat.find hex := by omega
    have hmin := Nat.find_min hex hlt
    have e1 : tx + (((k - 1 : ℕ) : ℤ) + 1) * dx = tx + (k : ℤ) * dx := by
      have e : ((k - 1 : ℕ) : ℤ) = (k : ℤ) - 1 := by omega
      rw [e]; ring
    have e2 : ty + (((k - 1 : ℕ) : ℤ) + 1) * dy = ty + (k : ℤ) * dy := by
      have e : ((k - 1 : ℕ) : ℤ) = (k : ℤ) - 1 := by omega
      rw [e]; ring
    rw [e1, e2] at hmin
    simpa using hmin
  exact ⟨Nat.find hex, hfree, Nat.find_spec hex, run_bound hc hfree⟩

/-- Claim C1: for every grid, start cell and cardinal unit direction, if
exactly `n` consecutive cells after the start in that direction are
non-solid and the `(n+1)`-th cell is solid or out of bounds (both cases are
`is_solid = true`), then the slide resolution of `Player.start_move`
computes the destination tile exactly `n` steps from the start (the start
itself when `n = 0`, the blocked-immediately case). -/
theorem resolveSlide_run_length (g : TileMap) (tx ty dx dy : ℤ) (n : ℕ)
    (hc : Cardinal dx dy)
    (hfree : ∀ k : ℕ, 1 ≤ k → k ≤ n →
      g.is_solid (tx + (k : ℤ) * dx) (ty + (k : ℤ) * dy) = false)
    (hsolid : g.is_solid (tx + ((n : ℤ) + 1) * dx) (ty + ((n : ℤ) + 1) * dy) = true) :
    g.resolveSlide tx ty dx dy = (tx + (n : ℤ) * dx, ty + (n : ℤ) * dy) := by
  have hb := run_bound hc hfree
  exact slideFuel_run g dx dy n (g.width + g.height + 1) tx ty hfree hsolid (by omega)

/-- Witness for C1: in the corridor `...#`, sliding right from the origin
crosses exactly the two free cells and stops in front of the wall. -/
theorem resolveSlide_run_length_witness :
    Cardinal 1 0 ∧
    c1Grid.is_solid (0 + (((2 : ℕ) : ℤ) + 1) * 1) (0 + (((2 : ℕ) : ℤ) + 1) * 0) = true ∧
    c1Grid.resolveSlide 0 0 1 0 = (0 + ((2 : ℕ) : ℤ) * 1, 0 + ((2 : ℕ) : ℤ) * 0) :=
  ⟨by decide, by decide,
    resolveSlide_run_length c1Grid 0 0 1 0 2 (by decide)
      (by intro k hk1 hk2; interval_cases k <;> decide) (by decide)⟩

/-- Claim C7: the slide-resolution loop terminates for every finite grid,
every start cell (in or out of bounds) and every cardinal direction: any
fuel above `width + height` yields the same result (the unbounded source
loop has converged), and the loop's exit condition really holds at the
result — the next cell in the direction of motion is solid. -/
theorem slideLoop_terminates (g : TileMap) (tx ty dx dy : ℤ) (fuel : ℕ)
    (hc : Cardinal dx dy) (hfuel : g.width + g.height < fuel) :
    slideFuel g dx dy fuel tx ty = g.resolveSlide tx ty dx dy ∧
    g.is_solid ((g.resolveSlide tx ty dx dy).1 + dx)
      ((g.resolveSlide tx ty dx dy).2 + dy) = true := by
  obtain ⟨n, hfree, hsolid, hb⟩ := exists_run g tx ty dx dy hc
  have r1 := slideFuel_run g dx dy n fuel tx ty hfree hsolid (by omega)
  have r2 : g.resolveSlide tx ty dx dy = (tx + (n : ℤ) * dx, ty + (n : ℤ) * dy) :=
    slideFuel_run g dx dy n (g.width + g.height + 1) tx ty hfree hsolid (by omega)
  refine ⟨by rw [r1, r2], ?_⟩
  rw [r2]
  have e1 : (tx + (n : ℤ) * dx, ty + (n : ℤ) * dy).1 + dx = tx + ((n : ℤ) + 1) * dx := by
    simp; ring
  have e2 : (tx + (n : ℤ) * dx, ty + (n : ℤ) * dy).2 + dy = ty + ((n : ℤ) + 1) * dy := by
    simp; ring
  rw [e1, e2]
  exact hsolid

/-- Witness for C7 at a concrete grid, start and fuel. -/
theorem slideLoop_terminates_witness :
    Cardinal 1 0 ∧ c1Grid.width + c1Grid.height < 9 ∧
    (slideFuel c1Grid 1 0 9 0 0 = c1Grid.resolveSlide 0 0 1 0 ∧
     c1Grid.is_solid ((c1Grid.resolveSlide 0 0 1 0).1 + 1)
       ((c1Grid.resolveSlide 0 0 1 0).2 + 0) = true) :=
  ⟨by decide, by decide, slideLoop_terminates c1Grid 0 0 1 0 9 (by decide) (by decide)⟩

/-- Claim C9, counterexample to the claim as stated: in a fully open
corridor, sliding right from cell 2 stops at the edge cell 4, and the
return slide from 4 runs past the original start all the way to cell 0 —
the returned cell is strictly farther from the turnaround cell than the
original start is, so the roundtrip does NOT return "a cell no farther
than the original start". -/
theorem resolveSlide_roundtrip_counterexample :
    c9Grid.is_solid 2 0 = false ∧
    c9Grid.resolveSlide 2 0 1 0 = (4, 0) ∧
    c9Grid.resolveSlide 4 0 (-1) 0 = (0, 0) ∧
    (c9Grid.resolveSlide 2 0 1 0).1 - (c9Grid.resolveSlide 4 0 (-1) 0).1 >
      (c9Grid.resolveSlide 2 0 1 0).1 - 2 :=
  ⟨by decide, by decide, by decide, by decide⟩

/-- Claim C9 (amended): from a free start cell, the slide in direction `d`
followed by the slide in direction `-d` from the result never stops short
of the original start: the final cell's coordinate along `d` is at most the
start's (the return may legitimately slide past the start through open
cells, but it can never end on the far side of a wall short of it). -/
theorem resolveSlide_roundtrip (g : TileMap) (tx ty dx dy : ℤ)
    (hc : Cardinal dx dy) (hstart : g.is_solid tx ty = false) :
    (g.resolveSlide (g.resolveSlide tx ty dx dy).1 (g.resolveSlide tx ty dx dy).2
        (-dx) (-dy)).1 * dx +
    (g.resolveSlide (g.resolveSlide tx ty dx dy).1 (g.resolveSlide tx ty dx dy).2
        (-dx) (-dy)).2 * dy ≤ tx * dx + ty * dy := by
  obtain ⟨n, hfreeN, hsolidN, hbN⟩ := exists_run g tx ty dx dy hc
  have hu : g.resolveSlide tx ty dx dy = (tx + (n : ℤ) * dx, ty + (n : ℤ) * dy) :=
    slideFuel_run g dx dy n (g.width + g.height + 1) tx ty hfreeN hsolidN (by omega)
  have hc2 : Cardinal (-dx) (-dy) := by
    rcases hc with ⟨h1, h2⟩ | ⟨h1, h2⟩ | ⟨h1, h2⟩ | ⟨h1, h2⟩ <;> subst h1 <;> subst h2 <;>
      simp [Cardinal]
  obtain ⟨m, hfreeM, hsolidM, hbM⟩ :=
    exists_run g (tx + (n : ℤ) * dx) (ty + (n : ℤ) * dy) (-dx) (-dy) hc2
  have hr : g.resolveSlide (tx + (n : ℤ) * dx) (ty + (n : ℤ) * dy) (-dx) (-dy) =
      (tx + (n : ℤ) * dx + (m : ℤ) * (-dx), ty + (n : ℤ) * dy + (m : ℤ) * (-dy)) :=
    slideFuel_run g (-dx) (-dy) m (g.width + g.height + 1)
      (tx + (n : ℤ) * dx) (ty + (n : ℤ) * dy) hfreeM hsolidM (by omega)
  have hmn : n ≤ m := by
    by_contra hlt
    push_neg at hlt
    have hcast1 : tx + (n : ℤ) * dx + ((m : ℤ) + 1) * (-dx) = tx + ((n - m - 1 : ℕ) : ℤ) * dx := by
      have e : ((n - m - 1 : ℕ) : ℤ) = (n : ℤ) - (m : ℤ) - 1 := by omega
      rw [e]; ring
    have hcast2 : ty + (n : ℤ) * dy + ((m : ℤ) + 1) * (-dy) = ty + ((n - m - 1 : ℕ) : ℤ) * dy := by
      have e : ((n - m - 1 : ℕ) : ℤ) = (n : ℤ) - (m : ℤ) - 1 := by omega
      rw [e]; ring
    rw [hcast1, hcast2] at hsolidM
    rcases Nat.eq_zero_or_pos (n - m - 1) with hj0 | hjpos
    · rw [hj0] at hsolidM
      simp only [Nat.cast_zero, zero_mul, add_zero] at hsolidM
      rw [hstart] at hsolidM
      exact absurd hsolidM (by simp)
    · have h := hfreeN (n - m - 1) hjpos (by omega)
      rw [h] at hsolidM
      exact absurd hsolidM (by simp)
  rw [hu]
  simp only
  rw [hr]
  simp only
  rcases hc with ⟨h1, h2⟩ | ⟨h1, h2⟩ | ⟨h1, h2⟩ | ⟨h1, h2⟩ <;> subst h1 <;> subst h2 <;>
    ring_nf <;> omega

/-- Witness for the amended C9: in the wall-bounded corridor `...#`,
sliding right from 0 and then back left returns exactly to the start. -/
theorem resolveSlide_roundtrip_witness :
    Cardinal 1 0 ∧ c1Grid.is_solid 0 0 = false ∧
    (c1Grid.resolveSlide (c1Grid.resolveSlide 0 0 1 0).1 (c1Grid.resolveSlide 0 0 1 0).2
        (-1) (-0)).1 * 1 +
    (c1Grid.resolveSlide (c1Grid.resolveSlide 0 0 1 0).1 (c1Grid.resolveSlide 0 0 1 0).2
        (-1) (-0)).2 * 0 ≤ 0 * 1 + 0 * 0 :=
  ⟨by decide, by decide, resolveSlide_roundtrip c1Grid 0 0 1 0 (by decide) (by decide)⟩

/-- Claim C6: every out-of-bounds query is total and returns the two
distinct sentinels: `is_solid` is `true` and `get_tile` is the empty
(space) character. In the embedding both functions are total Lean
functions, so neither can raise. -/
theorem oob_queries_safe (g : TileMap) (x y : ℤ)
    (h : x < 0 ∨ (g.width : ℤ) ≤ x ∨ y < 0 ∨ (g.height : ℤ) ≤ y) :
    g.is_solid x y = true ∧ g.get_tile x y = ' ' := by
  refine ⟨TileMap.is_solid_of_oob (by tauto), ?_⟩
  unfold TileMap.get_tile
  rw [if_neg (by omega)]

/-- Witness for C6 at a concrete grid and out-of-bounds coordinate. -/
theorem oob_queries_safe_witness :
    ((-1 : ℤ) < 0 ∨ (c1Grid.width : ℤ) ≤ -1 ∨ (0 : ℤ) < 0 ∨ (c1Grid.height : ℤ) ≤ 0) ∧
    (c1Grid.is_solid (-1) 0 = true ∧ c1Grid.get_tile (-1) 0 = ' ') :=
  ⟨by decide, oob_queries_safe c1Grid (-1) 0 (by decide)⟩

/-- The rest-alignment invariant (strengthened with target alignment,
which every operation maintains). -/
def PInv (s : PState) : Prop :=
  ((s.moving = false ∧ s.alive = true) → PAligned s) ∧ PTargetAligned s

/-- A freshly spawned player satisfies the alignment invariant. -/
theorem init_pinv (sx sy : ℤ) : PInv (PState.init sx sy) :=
  ⟨fun _ => ⟨sx, sy, rfl, rfl⟩, sx, sy, rfl, rfl⟩

/-- `start_move` preserves the alignment invariant: the blocked branch
leaves position, flags and target untouched; the sliding branch sets a
tile-aligned target and raises `moving`. -/
theorem start_move_pinv (s : PState) (g : TileMap) (dx dy : ℤ) (h : PInv s) :
    PInv (s.start_move g dx dy) := by
  obtain ⟨hpos, htgt⟩ := h
  unfold PState.start_move
  simp only
  split_ifs with hb
  · exact ⟨fun hh => hpos hh, htgt⟩
  · refine ⟨fun hh => absurd hh.1 (by simp), ?_⟩
    exact ⟨(g.resolveSlide (qfloor (s.x / ((TILE_SIZE : ℤ) : ℚ)))
        (qfloor (s.y / ((TILE_SIZE : ℤ) : ℚ))) dx dy).1,
      (g.resolveSlide (qfloor (s.x / ((TILE_SIZE : ℤ) : ℚ)))
        (qfloor (s.y / ((TILE_SIZE : ℤ) : ℚ))) dx dy).2, rfl, rfl⟩

/-- `update` preserves the alignment invariant: a dead or idle player does
not move; a moving player either stays `moving` or snaps exactly onto the
(aligned) target. -/
theorem update_pinv (s : PState) (dt : ℚ) (h : PInv s) : PInv (s.update dt) := by
  obtain ⟨hpos, htgt⟩ := h
  obtain ⟨ttx, tty, htx, hty⟩ := htgt
  unfold PState.update
  simp only
  split_ifs with h1 h2 h3 h4 h5 h6 h7 h8 <;>
    simp_all [PInv, PAligned, PTargetAligned]

/-- `kill` preserves the alignment invariant vacuously: it clears `alive`
(the position is deliberately left mid-slide). -/
theorem kill_pinv (s : PState) (d : ℚ) (h : PInv s) : PInv (s.kill d) := by
  refine ⟨fun hh => absurd hh.2 (by simp [PState.kill]), ?_⟩
  obtain ⟨ttx, tty, htx, hty⟩ := h.2
  exact ⟨ttx, tty, htx, hty⟩

/-- `reset_to_start` re-establishes the alignment invariant outright. -/
theorem reset_pinv (s : PState) : PInv s.reset_to_start :=
  ⟨fun _ => ⟨s.spawn_tile_x, s.spawn_tile_y, rfl, rfl⟩,
    s.spawn_tile_x, s.spawn_tile_y, rfl, rfl⟩

/-- Every player-machine step preserves the alignment invariant. -/
theorem pstep_pinv {g : TileMap} {s t : PState} (h : PStep g s t) (hs : PInv s) :
    PInv t := by
  cases h with
  | input dx dy hm ha hcd hd => exact start_move_pinv s g dx dy hs
  | upd dt hdt => exact update_pinv s dt hs
  | kill d hd => exact kill_pinv s d hs
  | reset => exact reset_pinv s

/-- Every reachable player state satisfies the alignment invariant. -/
theorem preachable_pinv {g : TileMap} {sx sy : ℤ} {s : PState}
    (hreach : PReachable g sx sy s) : PInv s := by
  unfold PReachable at hreach
  induction hreach with
  | refl => exact init_pinv sx sy
  | tail hab hstep ih => exact pstep_pinv hstep ih

/-- Claim C2 (amended): in every reachable player state, whenever the
`moving` flag is false AND the player is alive, the position rests exactly
on a grid cell boundary `(tx * TILE_SIZE, ty * TILE_SIZE)`. The alive
qualifier is forced by the counterexample: `kill()` during an in-progress
slide clears `moving` while leaving the position mid-tile (until
`reset_to_start` realigns it or the game ends). -/
theorem rest_position_aligned (g : TileMap) (sx sy : ℤ) (s : PState)
    (hreach : PReachable g sx sy s) (hm : s.moving = false) (ha : s.alive = true) :
    PAligned s :=
  (preachable_pinv hreach).1 ⟨hm, ha⟩

/-- Witness for the amended C2 at the freshly spawned (reachable) state. -/
theorem rest_position_aligned_witness :
    PReachable c2Grid 0 0 (PState.init 0 0) ∧ (PState.init 0 0).moving = false ∧
    (PState.init 0 0).alive = true ∧ PAligned (PState.init 0 0) :=
  ⟨Relation.ReflTransGen.refl, rfl, rfl,
    rest_position_aligned c2Grid 0 0 (PState.init 0 0) Relation.ReflTransGen.refl rfl rfl⟩

/-- Concrete evaluation of the mid-slide kill scenario: after `start_move`
right (target tile `(2,0)`, pixel target 64) and one 0.01 s frame the
player sits at `x = 11`; `kill` then freezes it there with `moving`
cleared. -/
theorem c2Bad_fields : c2Bad.moving = false ∧ c2Bad.x = 11 := by
  have hrs : c2Grid.resolveSlide 0 0 1 0 = (2, 0) := by decide
  have h1 : (PState.init 0 0).start_move c2Grid 1 0 = c2S1 := by
    unfold PState.start_move PState.init c2S1
    norm_num [qfloor, TILE_SIZE, hrs]
  have h2 : c2S1.update (1 / 100) = c2S2 := by
    unfold PState.update c2S1 c2S2
    norm_num [PLAYER_SPEED]
  unfold c2Bad
  rw [h1, h2]
  exact ⟨rfl, rfl⟩

/-- Claim C2, counterexample to the claim as stated: the state `c2Bad` is
reachable (spawn, slide right, one 0.01 s frame, killed by a trap
mid-slide), has `moving = false`, and its position `x = 11` is NOT on a
tile boundary — so the invariant is not preserved by `kill()` during an
in-progress slide. -/
theorem rest_position_aligned_counterexample :
    PReachable c2Grid 0 0 c2Bad ∧ c2Bad.moving = false ∧ ¬ PAligned c2Bad := by
  obtain ⟨hmv, hx11⟩ := c2Bad_fields
  refine ⟨?_, hmv, ?_⟩
  · unfold PReachable c2Bad
    exact Relation.ReflTransGen.tail (Relation.ReflTransGen.tail (Relation.ReflTransGen.tail
      Relation.ReflTransGen.refl
      (PStep.input _ 1 0 rfl rfl (by norm_num [PState.init]) (by decide)))
      (PStep.upd _ (1 / 100) (by norm_num)))
      (PStep.kill _ 0 le_rfl)
  · intro hal
    obtain ⟨tx, ty, hx, hy⟩ := hal
    rw [hx11] at hx
    have hz : tx * TILE_SIZE = 11 := by exact_mod_cast hx.symm
    have hz32 : tx * 32 = 11 := by simpa [TILE_SIZE] using hz
    omega

/-- A dead player short-circuits `handle_traps` entirely. -/
theorem handle_traps_of_dead (g : GameS) (h : g.player.alive = false) :
    handle_traps g = g := by
  unfold handle_traps
  rw [if_pos h]

/-- An alive player overlapping some trap is killed by `handle_traps`. -/
theorem handle_traps_of_hit (g : GameS) (ha : g.player.alive = true)
    (hh : g.traps.any (fun t => t.check_hit g.player.rect) = true) :
    handle_traps g = { g with player := g.player.kill 0 } := by
  unfold handle_traps
  rw [if_neg (by simp [ha]), if_pos hh]

/-- `handle_traps` never changes the lives counter. -/
theorem handle_traps_lives (g : GameS) : (handle_traps g).lives = g.lives := by
  unfold handle_traps; split_ifs <;> rfl

/-- `handle_traps` never changes the collectible list. -/
theorem handle_traps_collectibles (g : GameS) :
    (handle_traps g).collectibles = g.collectibles := by
  unfold handle_traps; split_ifs <;> rfl

/-- `handle_traps` never changes the dot list. -/
theorem handle_traps_dots (g : GameS) : (handle_traps g).dots = g.dots := by
  unfold handle_traps; split_ifs <;> rfl

/-- `handle_traps` never moves the player (`kill` only clears flags). -/
theorem handle_traps_player_rect (g : GameS) :
    (handle_traps g).player.rect = g.player.rect := by
  unfold handle_traps; split_ifs <;> rfl

/-- `death_check` on a dead, timed-out player with at most one life:
lives decrement and transition to game over, player left in place. -/
theorem death_check_dead_last (g : GameS) (ha : g.player.alive = false)
    (ht : g.player.death_timer ≤ 0) (hl : g.lives ≤ 1) :
    death_check g = { g with lives := g.lives - 1, state := GState.game_over } := by
  unfold death_check finish_player_death
  rw [if_pos ⟨ha, ht⟩, if_pos (by omega)]

/-- `death_check` on a dead, timed-out player with lives to spare:
lives decrement and respawn at the spawn tile. -/
theorem death_check_dead_respawn (g : GameS) (ha : g.player.alive = false)
    (ht : g.player.death_timer ≤ 0) (hl : 1 < g.lives) :
    death_check g = { g with lives := g.lives - 1, player := g.player.reset_to_start } := by
  unfold death_check finish_player_death
  rw [if_pos ⟨ha, ht⟩, if_neg (by omega)]

/-- Projection form of `death_check_dead_last` for the state field. -/
theorem death_check_state_of_dead_last (g : GameS) (ha : g.player.alive = false)
    (ht : g.player.death_timer ≤ 0) (hl : g.lives ≤ 1) :
    (death_check g).state = GState.game_over := by
  rw [death_check_dead_last g ha ht hl]

/-- `death_check` never changes the collectible list. -/
theorem death_check_collectibles (g : GameS) :
    (death_check g).collectibles = g.collectibles := by
  unfold death_check finish_player_death; split_ifs <;> rfl

/-- `death_check` never changes the dot list. -/
theorem death_check_dots (g : GameS) : (death_check g).dots = g.dots := by
  unfold death_check finish_player_death; split_ifs <;> rfl

/-- `death_check` decrements lives at most once. -/
theorem death_check_lives_cases (g : GameS) :
    (death_check g).lives = g.lives ∨ (death_check g).lives = g.lives - 1 := by
  unfold death_check finish_player_death; split_ifs <;> simp

/-- `exit_check` does nothing when the player misses the exit hitbox. -/
theorem exit_check_miss (g : GameS)
    (h : g.exit_portal.check_hit g.player.rect = false) : exit_check g = g := by
  unfold exit_check
  rw [if_neg (by simp [h])]

/-- `exit_check` on a hit: record update plus the level-complete state. -/
theorem exit_check_hit_eq (g : GameS)
    (h : g.exit_portal.check_hit g.player.rect = true) :
    exit_check g = { g with
        level_stars_best :=
          if g.stars_collected_count > g.level_stars_best then g.stars_collected_count
          else g.level_stars_best
        state := GState.level_complete } := by
  unfold exit_check
  rw [if_pos h]

/-- Projection form of `exit_check_hit_eq` for the state field. -/
theorem exit_check_state_of_hit (g : GameS)
    (h : g.exit_portal.check_hit g.player.rect = true) :
    (exit_check g).state = GState.level_complete := by
  rw [exit_check_hit_eq g h]

/-- `exit_check` never touches the player. -/
theorem exit_check_player (g : GameS) : (exit_check g).player = g.player := by
  unfold exit_check; split_ifs <;> rfl

/-- `exit_check` never changes the lives counter. -/
theorem exit_check_lives (g : GameS) : (exit_check g).lives = g.lives := by
  unfold exit_check; split_ifs <;> rfl

/-- `exit_check` never changes the collectible list. -/
theorem exit_check_collectibles (g : GameS) :
    (exit_check g).collectibles = g.collectibles := by
  unfold exit_check; split_ifs <;> rfl

/-- `exit_check` never changes the dot list. -/
theorem exit_check_dots (g : GameS) : (exit_check g).dots = g.dots := by
  unfold exit_check; split_ifs <;> rfl

/-- The collectible list produced by a whole check phase is the one
produced by `handle_collectibles`; no later check touches it. -/
theorem update_checks_collectibles (g : GameS) :
    (update_playing_checks g).collectibles = (handle_collectibles g).collectibles := by
  unfold update_playing_checks
  rw [exit_check_collectibles, death_check_collectibles]
  exact handle_traps_collectibles (handle_collectibles g)

/-- `handle_collectibles` in explicit map form. -/
theorem handle_collectibles_eq (g : GameS) :
    (handle_collectibles g).collectibles = g.collectibles.map (fun c =>
      if !c.collected && c.tile_x == (g.player.get_tile_pos).1 &&
          c.tile_y == (g.player.get_tile_pos).2 then { c with collected := true }
      else c) := rfl

/-- The dot list produced by a whole check phase: exactly the dots whose
hitbox does not overlap the player's box survive. -/
theorem update_checks_dots (g : GameS) :
    (update_playing_checks g).dots =
      g.dots.filter (fun d => !(d.rect.colliderect g.player.rect)) := by
  unfold update_playing_checks
  rw [exit_check_dots, death_check_dots]
  show (handle_traps (handle_collectibles g)).dots.filter
      (fun d => !(d.rect.colliderect (handle_traps (handle_collectibles g)).player.rect)) = _
  rw [handle_traps_dots, handle_traps_player_rect]
  rfl

/-- Claim C3 (amended): the per-frame checks of `update_playing` run in
the fixed order: collectible collection, then trap collision, then star
collection, then dot collection, then the LIFE-LOSS check, and finally
the exit-reached check (the claim had the last two in the other order). -/
theorem check_order_matches_code (g : GameS) :
    update_playing_checks g = checks_amended_order g := rfl

/-- Claim C3, counterexample to the claim as stated: on a playing frame
with a dead (timed-out) player resting on the exit with one life, the
source order (life-loss before exit) ends the frame in `level_complete`,
while the claimed order (exit before life-loss) would end it in
`game_over` — so the claimed check order disagrees with the code. -/
theorem check_order_counterexample :
    (update_playing_checks c3Game).state = GState.level_complete ∧
    (checks_claimed_order c3Game).state = GState.game_over ∧
    update_playing_checks c3Game ≠ checks_claimed_order c3Game := by
  have hhit : c3Game.exit_portal.check_hit c3Game.player.rect = true := by
    norm_num [c3Game, pDead0, ExitPortal.check_hit, ExitPortal.rect, Rect.colliderect,
      PState.rect, qfloor, TILE_SIZE]
  have e1 : handle_traps (handle_collectibles c3Game) = handle_collectibles c3Game :=
    handle_traps_of_dead _ rfl
  have hcode : (update_playing_checks c3Game).state = GState.level_complete := by
    unfold update_playing_checks
    rw [e1, death_check_dead_last (collect_dots (handle_stars (handle_collectibles c3Game)))
      rfl (le_refl 0) (le_refl 1)]
    exact exit_check_state_of_hit _ hhit
  have hclaim : (checks_claimed_order c3Game).state = GState.game_over := by
    unfold checks_claimed_order
    rw [e1, exit_check_hit_eq (collect_dots (handle_stars (handle_collectibles c3Game))) hhit]
    exact death_check_state_of_dead_last _ rfl (le_refl 0) (le_refl 1)
  refine ⟨hcode, hclaim, fun heq => ?_⟩
  rw [heq, hclaim] at hcode
  exact GState.noConfusion hcode

/-- Claim C4 (amended): a collectible is collected exactly when its tile
coordinate equals the player's rounded tile position — but a dot is
collected exactly when its small centered hitbox overlaps the player's
bounding box (`colliderect`), not by tile equality. -/
theorem pickup_collection_rules (g : GameS) :
    (∀ c ∈ g.collectibles, c.collected = false →
      (((c.tile_x, c.tile_y) = g.player.get_tile_pos →
        { c with collected := true } ∈ (update_playing_checks g).collectibles) ∧
       ((c.tile_x, c.tile_y) ≠ g.player.get_tile_pos →
        c ∈ (update_playing_checks g).collectibles))) ∧
    (∀ d : Dot, d ∈ (update_playing_checks g).dots ↔
      d ∈ g.dots ∧ d.rect.colliderect g.player.rect = false) := by
  constructor
  · intro c hc hcol
    rw [update_checks_collectibles, handle_collectibles_eq]
    constructor
    · intro heq
      refine List.mem_map.mpr ⟨c, hc, ?_⟩
      have h1 : c.tile_x = (g.player.get_tile_pos).1 := congrArg Prod.fst heq
      have h2 : c.tile_y = (g.player.get_tile_pos).2 := congrArg Prod.snd heq
      simp [hcol, h1, h2]
    · intro hne
      refine List.mem_map.mpr ⟨c, hc, ?_⟩
      rw [if_neg]
      intro hcond
      simp only [hcol, Bool.not_false, Bool.true_and, Bool.and_eq_true, beq_iff_eq] at hcond
      exact hne (Prod.ext hcond.1 hcond.2)
  · intro d
    rw [update_checks_dots]
    simp [List.mem_filter, Bool.not_eq_true']

/-- Claim C4, counterexample to the claim as stated: the player at pixel
x = 17 has rounded tile position (1,0), different from the dot's tile
(0,0); yet the frame collects (removes) that dot, because dot collection
is by rectangle overlap, not tile equality. -/
theorem pickup_collection_counterexample :
    c4Dot ∈ c4Game.dots ∧ c4Dot.collected = false ∧
    c4Game.player.get_tile_pos ≠ (c4Dot.tile_x, c4Dot.tile_y) ∧
    (update_playing_checks c4Game).dots = [] := by
  refine ⟨by simp [c4Game], rfl, ?_, ?_⟩
  · have hpos : c4Game.player.get_tile_pos = (1, 0) := by
      norm_num [c4Game, pAt17, PState.get_tile_pos, qfloor, TILE_SIZE]
    rw [hpos]
    decide
  · rw [update_checks_dots]
    have hcol : c4Dot.rect.colliderect pAt17.rect = true := by
      norm_num [c4Dot, pAt17, Dot.rect, Dot.size, PState.rect, Rect.colliderect,
        qfloor, TILE_SIZE]
    simp [c4Game, hcol]

/-- Claim C5: on a playing frame where the alive player overlaps a trap
(and the exit hitbox is hit neither at the death spot nor at the spawn):
with one life the frame ends in `game_over`, lives 0, the player dead and
not respawned (left exactly where it was); with two lives the frame ends
still `playing`, lives 1, the player alive again at the spawn tile. -/
theorem trap_hit_life_flow (g : GameS) (hstate : g.state = GState.playing)
    (halive : g.player.alive = true)
    (htrap : g.traps.any (fun t => t.check_hit g.player.rect) = true)
    (hexit_here : g.exit_portal.check_hit g.player.rect = false)
    (hexit_spawn : g.exit_portal.check_hit (g.player.reset_to_start).rect = false) :
    (g.lives = 1 →
      (update_playing_checks g).state = GState.game_over ∧
      (update_playing_checks g).lives = 0 ∧
      (update_playing_checks g).player.alive = false ∧
      (update_playing_checks g).player.x = g.player.x ∧
      (update_playing_checks g).player.y = g.player.y) ∧
    (g.lives = 2 →
      (update_playing_checks g).state = GState.playing ∧
      (update_playing_checks g).lives = 1 ∧
      (update_playing_checks g).player.alive = true ∧
      (update_playing_checks g).player.x = ((g.player.spawn_tile_x * TILE_SIZE : ℤ) : ℚ) ∧
      (update_playing_checks g).player.y = ((g.player.spawn_tile_y * TILE_SIZE : ℤ) : ℚ)) := by
  have e1 : handle_traps (handle_collectibles g) =
      { handle_collectibles g with player := (handle_collectibles g).player.kill 0 } :=
    handle_traps_of_hit _ halive htrap
  constructor
  · intro hl1
    unfold update_playing_checks
    rw [e1]
    set X := collect_dots (handle_stars
      { handle_collectibles g with player := (handle_collectibles g).player.kill 0 }) with hX
    rw [death_check_dead_last X rfl (le_refl 0) hl1.le]
    set Y : GameS := { X with lives := X.lives - 1, state := GState.game_over } with hY
    rw [exit_check_miss Y hexit_here]
    refine ⟨rfl, ?_, rfl, rfl, rfl⟩
    show g.lives - 1 = 0
    omega
  · intro hl2
    unfold update_playing_checks
    rw [e1]
    set X := collect_dots (handle_stars
      { handle_collectibles g with player := (handle_collectibles g).player.kill 0 }) with hX
    rw [death_check_dead_respawn X rfl (le_refl 0) (show (1 : ℤ) < g.lives by omega)]
    set Y : GameS := { X with lives := X.lives - 1, player := X.player.reset_to_start } with hY
    rw [exit_check_miss Y hexit_spawn]
    refine ⟨hstate, ?_, rfl, rfl, rfl⟩
    show g.lives - 1 = 1
    omega

/-- Witness for C5 at a concrete two-life state: the player stands on an
active trap, dies, loses one of the two lives and respawns. -/
theorem trap_hit_life_flow_witness :
    c5Game.state = GState.playing ∧ c5Game.player.alive = true ∧
    c5Game.traps.any (fun t => t.check_hit c5Game.player.rect) = true ∧
    c5Game.exit_portal.check_hit c5Game.player.rect = false ∧
    c5Game.exit_portal.check_hit (c5Game.player.reset_to_start).rect = false ∧
    ((c5Game.lives = 1 →
      (update_playing_checks c5Game).state = GState.game_over ∧
      (update_playing_checks c5Game).lives = 0 ∧
      (update_playing_checks c5Game).player.alive = false ∧
      (update_playing_checks c5Game).player.x = c5Game.player.x ∧
      (update_playing_checks c5Game).player.y = c5Game.player.y) ∧
     (c5Game.lives = 2 →
      (update_playing_checks c5Game).state = GState.playing ∧
      (update_playing_checks c5Game).lives = 1 ∧
      (update_playing_checks c5Game).player.alive = true ∧
      (update_playing_checks c5Game).player.x =
        ((c5Game.player.spawn_tile_x * TILE_SIZE : ℤ) : ℚ) ∧
      (update_playing_checks c5Game).player.y =
        ((c5Game.player.spawn_tile_y * TILE_SIZE : ℤ) : ℚ))) := by
  have hany : c5Game.traps.any (fun t => t.check_hit c5Game.player.rect) = true := by
    norm_num [c5Game, pIdle0, SpikeTrap.check_hit, SpikeTrap.rect, SpikeTrap.pad,
      SpikeTrap.trap_size, Rect.colliderect, PState.rect, qfloor, TILE_SIZE]
  have hm1 : c5Game.exit_portal.check_hit c5Game.player.rect = false := by
    norm_num [c5Game, pIdle0, ExitPortal.check_hit, ExitPortal.rect, Rect.colliderect,
      PState.rect, qfloor, TILE_SIZE]
  have hm2 : c5Game.exit_portal.check_hit (c5Game.player.reset_to_start).rect = false := by
    norm_num [c5Game, pIdle0, ExitPortal.check_hit, ExitPortal.rect, Rect.colliderect,
      PState.rect, PState.reset_to_start, qfloor, TILE_SIZE]
  exact ⟨rfl, rfl, hany, hm1, hm2, trap_hit_life_flow c5Game rfl rfl hany hm1 hm2⟩

/-- Claim C8: if a trap and a star share a tile and the player's box
overlaps both hitboxes on a playing frame, the frame ends with the player
dead — the trap kill wins over the star collection. The hypothesis
`lives <= MAX_LIVES` covers every reachable playing frame: `MAX_LIVES = 1`
and the game only ever resets lives to `MAX_LIVES` or decrements them. -/
theorem trap_beats_star_same_tile (g : GameS) (t : SpikeTrap) (s : Star)
    (hstate : g.state = GState.playing) (hlives : g.lives ≤ MAX_LIVES)
    (halive : g.player.alive = true)
    (ht : t ∈ g.traps) (hs : s ∈ g.stars)
    (hsx : s.tile_x = t.tile_x) (hsy : s.tile_y = t.tile_y)
    (hthit : t.check_hit g.player.rect = true)
    (hscol : s.collected = false)
    (hshit : s.rect.colliderect g.player.rect = true) :
    (update_playing_checks g).player.alive = false := by
  have htrap : g.traps.any (fun x => x.check_hit g.player.rect) = true :=
    List.any_eq_true.mpr ⟨t, ht, hthit⟩
  have e1 : handle_traps (handle_collectibles g) =
      { handle_collectibles g with player := (handle_collectibles g).player.kill 0 } :=
    handle_traps_of_hit _ halive htrap
  unfold update_playing_checks
  rw [e1, exit_check_player]
  set X := collect_dots (handle_stars
    { handle_collectibles g with player := (handle_collectibles g).player.kill 0 }) with hX
  rw [death_check_dead_last X rfl (le_refl 0)
    (show g.lives ≤ 1 by simpa [MAX_LIVES] using hlives)]
  rfl

/-- Witness for C8 at a concrete state with a trap and a star on tile
(0,0), both overlapped by the player. -/
theorem trap_beats_star_same_tile_witness :
    c8Game.state = GState.playing ∧ c8Game.lives ≤ MAX_LIVES ∧
    c8Game.player.alive = true ∧
    (⟨0, 0, true⟩ : SpikeTrap) ∈ c8Game.traps ∧ (⟨0, 0, false⟩ : Star) ∈ c8Game.stars ∧
    (⟨0, 0, true⟩ : SpikeTrap).check_hit c8Game.player.rect = true ∧
    (⟨0, 0, false⟩ : Star).rect.colliderect c8Game.player.rect = true ∧
    (update_playing_checks c8Game).player.alive = false := by
  have hthit : (⟨0, 0, true⟩ : SpikeTrap).check_hit c8Game.player.rect = true := by
    norm_num [c8Game, pIdle0, SpikeTrap.check_hit, SpikeTrap.rect, SpikeTrap.pad,
      SpikeTrap.trap_size, Rect.colliderect, PState.rect, qfloor, TILE_SIZE]
  have hshit : (⟨0, 0, false⟩ : Star).rect.colliderect c8Game.player.rect = true := by
    norm_num [c8Game, pIdle0, Star.rect, Star.size, Rect.colliderect, PState.rect,
      qfloor, TILE_SIZE]
  refine ⟨rfl, by norm_num [c8Game, MAX_LIVES], rfl, by simp [c8Game], by simp [c8Game],
    hthit, hshit, ?_⟩
  exact trap_beats_star_same_tile c8Game ⟨0, 0, true⟩ ⟨0, 0, false⟩ rfl
    (by norm_num [c8Game, MAX_LIVES]) rfl (by simp [c8Game]) (by simp [c8Game])
    rfl rfl hthit rfl hshit

/-- Claim C10: on a frame where the player is already dead, `handle_traps`
returns its input unchanged (no trap check, no `kill`), and a whole check
phase decrements lives at most once — so one death yields exactly one
life decrement even while the dead player's box still overlaps a trap. -/
theorem dead_player_trap_noop (g : GameS) (h : g.player.alive = false) :
    handle_traps g = g ∧
    ((update_playing_checks g).lives = g.lives ∨
     (update_playing_checks g).lives = g.lives - 1) := by
  refine ⟨handle_traps_of_dead g h, ?_⟩
  unfold update_playing_checks
  rw [exit_check_lives, handle_traps_of_dead (handle_collectibles g) h]
  rcases death_check_lives_cases (collect_dots (handle_stars (handle_collectibles g)))
    with hb | hb
  · left
    rw [hb]
    rfl
  · right
    rw [hb]
    rfl

/-- Witness for C10 at a concrete state where the dead player's box still
overlaps an active trap. -/
theorem dead_player_trap_noop_witness :
    c10Game.player.alive = false ∧
    (handle_traps c10Game = c10Game ∧
      ((update_playing_checks c10Game).lives = c10Game.lives ∨
       (update_playing_checks c10Game).lives = c10Game.lives - 1)) :=
  ⟨rfl, dead_player_trap_noop c10Game rfl⟩

end Tomb
